import Mathlib

/-!
Shallow embedding of the preview-environment controller in `src/main.rs`
(crate `rust-k8s-start`): a watch loop over `PreviewEnvironment` custom
resources that, on `Added`, creates a Deployment, a Service and an
Ambassador Mapping, and on `Deleted`, deletes them.

The cluster API is external; the embedding makes the reconciler
(`handle`) parametric over the gateway operations it invokes, mirroring
the `ApiResources` struct of the source, and instantiates them with a
mock gateway that implements the create/delete semantics of the cluster
API (`AlreadyExists` when the name is taken on create, `NotFound` when
the name is absent on delete) and records the operations issued.
-/

namespace PreviewCtrl

/-- JSON documents, as built by the `json!` macro in the source. -/
inductive Json where
  | str (s : String)
  | num (n : Int)
  | arr (elems : List Json)
  | obj (fields : List (String × Json))

/-- `pub struct PreviewEnvironment` (main.rs lines 17-21): the custom
resource's spec. -/
structure PreviewEnvironment where
  image : String
  fqdn : String
deriving DecidableEq, Repr

/-- The metadata of a watched object; `handle` reads only `name`. -/
structure Metadata where
  name : String
deriving DecidableEq, Repr

/-- `type KubePreviewEnvironment = Object<PreviewEnvironment, Void>`
(main.rs line 22). -/
structure KubePreviewEnvironment where
  metadata : Metadata
  spec : PreviewEnvironment
deriving DecidableEq, Repr

/-- `WatchEvent<KubePreviewEnvironment>` as matched in `handle`
(main.rs lines 166-198). -/
inductive WatchEvent where
  | added (pe : KubePreviewEnvironment)
  | modified (pe : KubePreviewEnvironment)
  | deleted (pe : KubePreviewEnvironment)
  | errorEvent (err : String)
deriving DecidableEq, Repr

/-- Errors returned by the cluster API, per the gateway contract
(spec section 4.3): `AlreadyExists` on create of a taken name,
`NotFound` on delete of an absent name, `Transient` for network
failures. -/
inductive ApiError where
  | alreadyExists
  | notFound
  | transient
deriving DecidableEq, Repr

/-- How one call to `handle` ends: normally, or by a Rust panic
(`expect` / `unwrap` on an `Err`), which aborts the process. -/
inductive Outcome where
  | normal
  | panicked (msg : String)
deriving DecidableEq, Repr

/-- An HTTP request value as returned by `kube::RawApi` request
builders.  `RawApi` methods such as `delete` only construct the
request; it is executed only if passed to `client.request` (compare
`create_mapping`, main.rs lines 157-163, which does exactly that
for the mapping create). -/
structure HttpRequest where
  name : String
deriving DecidableEq, Repr

/-- `RawApi::delete(name, dp)` (used at main.rs line 193): builds the
HTTP delete request for `name` and returns it as a `Result`; it does
not issue the request.  Building cannot fail here. -/
def RawApi_delete (name : String) : Except String HttpRequest :=
  .ok { name := name }

/-- The gateway surface of `struct ApiResources` (main.rs lines 24-29)
as `handle` uses it, over an abstract cluster state `σ`:
`deployments.create`, `services.create`, the executed mapping create
(`mappings.create` request passed to `client.request`,
main.rs lines 161-162), `services.delete` and `deployments.delete`.
Each call returns the new cluster state and `none` on success or
`some e` on an API error. -/
structure ApiResources (σ : Type) where
  deployments_create : σ → Json → σ × Option ApiError
  services_create : σ → Json → σ × Option ApiError
  mappings_create : σ → Json → σ × Option ApiError
  services_delete : σ → String → σ × Option ApiError
  deployments_delete : σ → String → σ × Option ApiError

/-- `json_for_deployment` (main.rs lines 70-104). -/
def json_for_deployment (name : String) : Json :=
  .obj [
    ("apiVersion", .str "apps/v1"),
    ("kind", .str "Deployment"),
    ("metadata", .obj [
      ("name", .str name),
      ("labels", .obj [
        ("preview", .str "true")])]),
    ("spec", .obj [
      ("replicas", .num 1),
      ("selector", .obj [
        ("matchLabels", .obj [
          ("app", .str name)])]),
      ("template", .obj [
        ("metadata", .obj [
          ("labels", .obj [
            ("app", .str name)])]),
        ("spec", .obj [
          ("containers", .arr [
            .obj [
              ("name", .str name),
              ("image", .str "nginx")]])])])])]

/-- `json_for_service` (main.rs lines 106-128). -/
def json_for_service (name : String) : Json :=
  .obj [
    ("apiVersion", .str "v1"),
    ("kind", .str "Service"),
    ("metadata", .obj [
      ("name", .str name),
      ("labels", .obj [
        ("preview", .str "true")])]),
    ("spec", .obj [
      ("selector", .obj [
        ("app", .str name)]),
      ("ports", .arr [
        .obj [
          ("protocol", .str "TCP"),
          ("port", .num 80)]])])]

/-- `json_for_mapping` (main.rs lines 130-143). -/
def json_for_mapping (name : String) (host : String) (service : String) : Json :=
  .obj [
    ("apiVersion", .str "getambassador.io/v2"),
    ("kind", .str "Mapping"),
    ("metadata", .obj [
      ("name", .str name)]),
    ("spec", .obj [
      ("host", .str host),
      ("service", .str service),
      ("prefix", .str "/")])]

/-- `handle` (main.rs lines 165-199).  `Added`: derive the four names,
then `create_deployment`, `create_service`, `create_mapping`, each of
which panics (`expect` / `unwrap`) on an API error.  `Deleted`: delete
the derived service name, then the derived deployment name (each with
`unwrap`), then build — but never execute — a `RawApi` delete request
for the fixed name `"test-mapping"` (the `Result` of the request
builder is unwrapped and the request value is dropped; unlike
`create_mapping` it is never passed to `client.request`, and the call
is not even awaited).  `Modified` and `Error` only print. -/
def handle {σ : Type} (res : ApiResources σ) (s : σ) (event : WatchEvent) :
    σ × Outcome :=
  match event with
  | .added pe =>
    let deploy_name := pe.metadata.name ++ "-deployment"
    let service_name := pe.metadata.name ++ "-service"
    let mapping_name := pe.metadata.name ++ "-mapping"
    let host := pe.metadata.name ++ ".volgenic.com"
    let test_deploy := json_for_deployment deploy_name
    match res.deployments_create s test_deploy with
    | (s1, some _) => (s1, .panicked "Failed to create deployment")
    | (s1, none) =>
      let test_service := json_for_service service_name
      match res.services_create s1 test_service with
      | (s2, some _) => (s2, .panicked "Failed to create service")
      | (s2, none) =>
        let test_mapping := json_for_mapping mapping_name host service_name
        match res.mappings_create s2 test_mapping with
        | (s3, some _) => (s3, .panicked "called `Result::unwrap()` on an `Err` value")
        | (s3, none) => (s3, .normal)
  | .deleted pe =>
    match res.services_delete s (pe.metadata.name ++ "-service") with
    | (s1, some _) => (s1, .panicked "called `Result::unwrap()` on an `Err` value")
    | (s1, none) =>
      match res.deployments_delete s1 (pe.metadata.name ++ "-deployment") with
      | (s2, some _) => (s2, .panicked "called `Result::unwrap()` on an `Err` value")
      | (s2, none) =>
        match RawApi_delete "test-mapping" with
        | .error e => (s2, .panicked e)
        | .ok _ => (s2, .normal)
  | .modified _ => (s, .normal)
  | .errorEvent _ => (s, .normal)

/-! ## JSON projections used to state properties of the built documents -/

/-- Look a key up in a JSON object (first occurrence). -/
def jsonLookup (j : Json) (key : String) : Option Json :=
  match j with
  | .obj fields => fields.lookup key
  | _ => none

/-- The string value of a field of a JSON object, when present. -/
def jsonStrField (j : Json) (key : String) : Option String :=
  match jsonLookup j key with
  | some (.str s) => some s
  | _ => none

/-- The integer value of a field of a JSON object, when present. -/
def jsonNumField (j : Json) (key : String) : Option Int :=
  match jsonLookup j key with
  | some (.num n) => some n
  | _ => none

/-- `metadata.name` of a resource document — the key the cluster API
indexes a collection by. -/
def jsonName (doc : Json) : String :=
  match jsonLookup doc "metadata" with
  | some m => (jsonStrField m "name").getD ""
  | none => ""

/-- `metadata.labels.<key>` of a resource document. -/
def jsonMetaLabel (doc : Json) (key : String) : Option String :=
  match jsonLookup doc "metadata" with
  | some m =>
    match jsonLookup m "labels" with
    | some ls => jsonStrField ls key
    | none => none
  | none => none

/-- `spec.<key>` of a resource document, as a string. -/
def jsonSpecStr (doc : Json) (key : String) : Option String :=
  match jsonLookup doc "spec" with
  | some sp => jsonStrField sp key
  | none => none

/-- `spec.replicas` of a deployment document. -/
def deploymentReplicas (doc : Json) : Option Int :=
  match jsonLookup doc "spec" with
  | some sp => jsonNumField sp "replicas"
  | none => none

/-- `spec.selector.matchLabels.app` of a deployment document. -/
def deploymentSelectorApp (doc : Json) : Option String :=
  match jsonLookup doc "spec" with
  | some sp =>
    match jsonLookup sp "selector" with
    | some sel =>
      match jsonLookup sel "matchLabels" with
      | some ml => jsonStrField ml "app"
      | none => none
    | none => none
  | none => none

/-- `spec.template.metadata.labels.app` of a deployment document. -/
def deploymentTemplateApp (doc : Json) : Option String :=
  match jsonLookup doc "spec" with
  | some sp =>
    match jsonLookup sp "template" with
    | some tpl => jsonMetaLabel tpl "app"
    | none => none
  | none => none

/-- `spec.template.spec.containers` of a deployment document, as a
list of container objects. -/
def deploymentContainers (doc : Json) : List Json :=
  match jsonLookup doc "spec" with
  | some sp =>
    match jsonLookup sp "template" with
    | some tpl =>
      match jsonLookup tpl "spec" with
      | some tsp =>
        match jsonLookup tsp "containers" with
        | some (.arr cs) => cs
        | _ => []
      | none => []
    | none => []
  | none => []

/-! ## Mock cluster gateway

The cluster API itself is external to the repository (spec sections 4.3
and 6); this mock implements its documented create/delete semantics over
an explicit store, and additionally records every operation issued to
it, so that theorems can speak about which calls reached the gateway and
in which order. -/

/-- One operation issued to (and executed by) the cluster gateway,
identified by collection and resource name. -/
inductive GwOp where
  | createDeployment (name : String)
  | createService (name : String)
  | createMapping (name : String)
  | deleteService (name : String)
  | deleteDeployment (name : String)
  | deleteMapping (name : String)
deriving DecidableEq, Repr

/-- The mock cluster's state: the three collections, keyed by
`metadata.name`, plus the trace of operations issued so far. -/
structure ClusterState where
  deployments : List (String × Json)
  services : List (String × Json)
  mappings : List (String × Json)
  trace : List GwOp

/-- The empty cluster with an empty trace. -/
def emptyCluster : ClusterState :=
  { deployments := [], services := [], mappings := [], trace := [] }

/-- Whether a collection holds a resource of the given name. -/
def hasName (coll : List (String × Json)) (name : String) : Bool :=
  coll.any (fun p => p.1 == name)

/-- Remove the resource of the given name from a collection. -/
def removeName (coll : List (String × Json)) (name : String) :
    List (String × Json) :=
  coll.filter (fun p => p.1 != name)

/-- Cluster-API create semantics on one collection: `AlreadyExists`
when the document's `metadata.name` is taken, otherwise insert. -/
def createIn (coll : List (String × Json)) (doc : Json) :
    List (String × Json) × Option ApiError :=
  let name := jsonName doc
  if hasName coll name then (coll, some .alreadyExists)
  else ((name, doc) :: coll, none)

/-- Cluster-API delete semantics on one collection: `NotFound` when
the name is absent, otherwise remove. -/
def deleteIn (coll : List (String × Json)) (name : String) :
    List (String × Json) × Option ApiError :=
  if hasName coll name then (removeName coll name, none)
  else (coll, some .notFound)

/-- The mock gateway: faithful create/delete semantics per collection,
recording each issued operation in the trace. -/
def idealGateway : ApiResources ClusterState where
  deployments_create := fun s doc =>
    let r := createIn s.deployments doc
    ({ s with deployments := r.1,
              trace := s.trace ++ [.createDeployment (jsonName doc)] }, r.2)
  services_create := fun s doc =>
    let r := createIn s.services doc
    ({ s with services := r.1,
              trace := s.trace ++ [.createService (jsonName doc)] }, r.2)
  mappings_create := fun s doc =>
    let r := createIn s.mappings doc
    ({ s with mappings := r.1,
              trace := s.trace ++ [.createMapping (jsonName doc)] }, r.2)
  services_delete := fun s name =>
    let r := deleteIn s.services name
    ({ s with services := r.1,
              trace := s.trace ++ [.deleteService name] }, r.2)
  deployments_delete := fun s name =>
    let r := deleteIn s.deployments name
    ({ s with deployments := r.1,
              trace := s.trace ++ [.deleteDeployment name] }, r.2)

/-- A gateway identical to `idealGateway` except that every deployment
create fails with a non-benign `Transient` error (network failure).
The failed call is still recorded in the trace — it did reach the
gateway. -/
def faultyDeployGateway : ApiResources ClusterState :=
  { idealGateway with
    deployments_create := fun s doc =>
      ({ s with trace := s.trace ++ [.createDeployment (jsonName doc)] },
       some .transient) }

/-! ## The watch loop (main.rs lines 60-67)

```text
loop {
    let mut previews_stream = informer.poll().await?.boxed();
    while let Some(event) = previews_stream.next().await {
        handle(&resources, event?).await;
    }
}
```

Each `poll` yields either an error (which the `?` propagates out of
`main`) or a finite stream of items, each item a `Result`: an `Err`
item is propagated out of `main` by the inner `event?`, an `Ok` event
is passed to `handle` (whose panics abort the process).  When a stream
is exhausted the outer `loop` polls again — a new subscription. -/

/-- One item of a poll's event stream. -/
inductive StreamItem where
  | ok (ev : WatchEvent)
  | err (e : String)
deriving DecidableEq, Repr

/-- One round of `informer.poll()`: a fresh event stream, or a poll
error. -/
inductive Poll where
  | stream (items : List StreamItem)
  | pollErr (e : String)
deriving DecidableEq, Repr

/-- How a run of the watch loop on a finite supply of polls ends. -/
inductive LoopResult where
  /-- The supply was consumed; the loop would poll again (it did not
  terminate on its own). -/
  | running
  /-- `main` returned `Err` through a `?` operator. -/
  | mainError (e : String)
  /-- The process aborted on a panic inside `handle`. -/
  | aborted (msg : String)
deriving DecidableEq, Repr

/-- The inner `while let` of the watch loop: consume one poll's stream
items in order.  Returns `none` when the stream is exhausted (so the
outer loop polls again), `some r` when the run ends. -/
def runStream {σ : Type} (res : ApiResources σ) (s : σ) :
    List StreamItem → σ × Option LoopResult
  | [] => (s, none)
  | .err e :: _ => (s, some (.mainError e))
  | .ok ev :: rest =>
    match handle res s ev with
    | (s', .panicked m) => (s', some (.aborted m))
    | (s', .normal) => runStream res s' rest

/-- The outer `loop` of `main`: poll, consume the stream, repeat. -/
def runLoop {σ : Type} (res : ApiResources σ) (s : σ) :
    List Poll → σ × LoopResult
  | [] => (s, .running)
  | .pollErr e :: _ => (s, .mainError e)
  | .stream items :: rest =>
    match runStream res s items with
    | (s', some r) => (s', r)
    | (s', none) => runLoop res s' rest

/-! ## Derived projections and concrete fixtures -/

/-- The image of the unique container of a deployment document:
`some` only when the document has exactly one container. -/
def deploymentImage (doc : Json) : Option String :=
  match deploymentContainers doc with
  | [c] => jsonStrField c "image"
  | _ => none

/-- The name of the unique container of a deployment document:
`some` only when the document has exactly one container. -/
def deploymentContainerName (doc : Json) : Option String :=
  match deploymentContainers doc with
  | [c] => jsonStrField c "name"
  | _ => none

/-- Modelled from the spec: `buildDeployment` as section 4.2 describes
it, with the container image taken from the `defaultContainerImage`
configuration option ("The image used by `buildDeployment` should be a
configuration option (documented default, not hardcoded)").  Identical
to `json_for_deployment` except for the image field; used to compare
the source's builder against the spec's configured-image requirement. -/
def buildDeployment_spec (defaultContainerImage : String) (name : String) : Json :=
  .obj [
    ("apiVersion", .str "apps/v1"),
    ("kind", .str "Deployment"),
    ("metadata", .obj [
      ("name", .str name),
      ("labels", .obj [
        ("preview", .str "true")])]),
    ("spec", .obj [
      ("replicas", .num 1),
      ("selector", .obj [
        ("matchLabels", .obj [
          ("app", .str name)])]),
      ("template", .obj [
        ("metadata", .obj [
          ("labels", .obj [
            ("app", .str name)])]),
        ("spec", .obj [
          ("containers", .arr [
            .obj [
              ("name", .str name),
              ("image", .str defaultContainerImage)]])])])])]

/-- A concrete source resource named `pr42` (the spec's scenario
input). -/
def pe0 : KubePreviewEnvironment :=
  { metadata := { name := "pr42" },
    spec := { image := "app:1", fqdn := "pr42.example.com" } }

/-- A second source resource named `pr9`, used to observe whether a
later event is still consumed. -/
def pe9 : KubePreviewEnvironment :=
  { metadata := { name := "pr9" },
    spec := { image := "app:9", fqdn := "pr9.example.com" } }

/-- A source resource with the same `metadata.name` as `pe0` but a
different `spec.image` and `spec.fqdn`. -/
def peB : KubePreviewEnvironment :=
  { metadata := { name := "pr42" },
    spec := { image := "app:2", fqdn := "other.example.com" } }

/-- The cluster after `Added(pe0)` has been reconciled from the empty
cluster: the three `pr42` dependents exist. -/
def pr42Cluster : ClusterState :=
  (handle idealGateway emptyCluster (.added pe0)).1

/-- The cluster state after `Deleted(pe0)` panics on the empty
cluster: no resources, one issued (and failed) service delete. -/
def c9wState : ClusterState :=
  { deployments := [], services := [], mappings := [],
    trace := [GwOp.deleteService "pr42-service"] }

/-- Whether an issued gateway operation is a mapping delete. -/
def isMappingDelete : GwOp → Bool
  | .deleteMapping _ => true
  | _ => false

/-! ## Helper lemmas -/

theorem jsonName_deployment (n : String) : jsonName (json_for_deployment n) = n := rfl

theorem jsonName_service (n : String) : jsonName (json_for_service n) = n := rfl

theorem jsonName_mapping (n h sv : String) : jsonName (json_for_mapping n h sv) = n := rfl

theorem hasName_cons_self (n : String) (doc : Json) (rest : List (String × Json)) :
    hasName ((n, doc) :: rest) n = true := by
  simp [hasName]

/-- A clean `Added` pass on the mock gateway: when none of the three
derived names is taken, the three dependents are created, three create
calls are issued in order, and `handle` returns normally. -/
theorem handle_added_clean (pe : KubePreviewEnvironment) (s : ClusterState)
    (hd : hasName s.deployments (pe.metadata.name ++ "-deployment") = false)
    (hs : hasName s.services (pe.metadata.name ++ "-service") = false)
    (hm : hasName s.mappings (pe.metadata.name ++ "-mapping") = false) :
    handle idealGateway s (.added pe) =
      ({ deployments := (pe.metadata.name ++ "-deployment",
           json_for_deployment (pe.metadata.name ++ "-deployment")) :: s.deployments,
         services := (pe.metadata.name ++ "-service",
           json_for_service (pe.metadata.name ++ "-service")) :: s.services,
         mappings := (pe.metadata.name ++ "-mapping",
           json_for_mapping (pe.metadata.name ++ "-mapping")
             (pe.metadata.name ++ ".volgenic.com")
             (pe.metadata.name ++ "-service")) :: s.mappings,
         trace := s.trace ++
           [.createDeployment (pe.metadata.name ++ "-deployment"),
            .createService (pe.metadata.name ++ "-service"),
            .createMapping (pe.metadata.name ++ "-mapping")] }, .normal) := by
  simp [handle, idealGateway, createIn, jsonName_deployment, jsonName_service,
    jsonName_mapping, hd, hs, hm]

/-- An `Added` pass when the derived deployment name is already taken:
the deployment create fails with `AlreadyExists` and the `expect` in
`create_deployment` panics; no further create is issued and the
collections are unchanged. -/
theorem handle_added_taken (pe : KubePreviewEnvironment) (s : ClusterState)
    (hd : hasName s.deployments (pe.metadata.name ++ "-deployment") = true) :
    handle idealGateway s (.added pe) =
      ({ s with trace := s.trace ++
           [.createDeployment (pe.metadata.name ++ "-deployment")] },
       .panicked "Failed to create deployment") := by
  simp [handle, idealGateway, createIn, jsonName_deployment, hd]

/-- A `Deleted` pass when the derived service name is absent: the
service delete fails with `NotFound` and the `unwrap` panics; no
further delete is issued and the collections are unchanged. -/
theorem handle_deleted_absent (pe : KubePreviewEnvironment) (s : ClusterState)
    (hs : hasName s.services (pe.metadata.name ++ "-service") = false) :
    handle idealGateway s (.deleted pe) =
      ({ s with trace := s.trace ++
           [.deleteService (pe.metadata.name ++ "-service")] },
       .panicked "called `Result::unwrap()` on an `Err` value") := by
  simp [handle, idealGateway, deleteIn, hs]

/-- A `Deleted` pass when the derived service and deployment names are
present: both are deleted, exactly two delete calls are issued, the
mappings collection is untouched, and `handle` returns normally (the
mapping delete request is built for `"test-mapping"` but never
executed). -/
theorem handle_deleted_present (pe : KubePreviewEnvironment) (s : ClusterState)
    (hs : hasName s.services (pe.metadata.name ++ "-service") = true)
    (hd : hasName s.deployments (pe.metadata.name ++ "-deployment") = true) :
    handle idealGateway s (.deleted pe) =
      ({ s with
         services := removeName s.services (pe.metadata.name ++ "-service"),
         deployments := removeName s.deployments (pe.metadata.name ++ "-deployment"),
         trace := s.trace ++
           [.deleteService (pe.metadata.name ++ "-service"),
            .deleteDeployment (pe.metadata.name ++ "-deployment")] }, .normal) := by
  simp [handle, idealGateway, deleteIn, RawApi_delete, hs, hd]

/-! ## Claims -/

/-- C1: the claim says handling `Deleted(N)` issues a delete of the
mapping collection for the derived name `N-mapping` (the name the
Added handler created), not any fixed name.  Evaluating the code at
the failing input (source named `pr42` with its three dependents
present): the `Deleted` arm issues only the service and deployment
deletes — no mapping delete at all reaches the gateway, `pr42-mapping`
remains in the cluster, and the only mapping-delete request the code
builds (and then drops without executing, main.rs line 193) is for the
fixed name `"test-mapping"`, which differs from `"pr42-mapping"`. -/
theorem C1_deleted_mapping_fixed_name_code_eval :
    (handle idealGateway pr42Cluster (.deleted pe0)).2 = .normal ∧
    (handle idealGateway pr42Cluster (.deleted pe0)).1.trace =
      pr42Cluster.trace ++
        [.deleteService "pr42-service", .deleteDeployment "pr42-deployment"] ∧
    ((handle idealGateway pr42Cluster (.deleted pe0)).1.trace.filter
      isMappingDelete) = [] ∧
    hasName (handle idealGateway pr42Cluster (.deleted pe0)).1.mappings
      "pr42-mapping" = true ∧
    RawApi_delete "test-mapping" = .ok { name := "test-mapping" } ∧
    "test-mapping" ≠ "pr42-mapping" :=
  ⟨rfl, rfl, rfl, rfl, rfl, by decide⟩

/-- C2 counterexample: the claim says that on the second `Added(r)`
pass each create's `AlreadyExists` response is treated as success and
no error is surfaced as a failure.  In fact the second pass's first
create already panics (`expect` in `create_deployment`): reconciling
`Added(pe0)` on the cluster that already holds `pr42`'s dependents
does not return normally. -/
theorem C2_second_added_surfaces_failure_cex :
    (handle idealGateway pr42Cluster (.added pe0)).2 ≠ .normal ∧
    (handle idealGateway pr42Cluster (.added pe0)).2 =
      .panicked "Failed to create deployment" :=
  ⟨by decide, rfl⟩

/-- C2 (amended): reconciling `Added(r)` twice from a cluster holding
none of the three dependents leaves the dependent-resource set after
the second pass identical to the set after the first, but the second
pass is not absorbed as success: its first create's `AlreadyExists`
response makes `create_deployment`'s `expect` panic, surfacing a
process-aborting failure. -/
theorem C2_added_twice_state_idempotent_but_panics
    (pe : KubePreviewEnvironment) (s : ClusterState)
    (hd : hasName s.deployments (pe.metadata.name ++ "-deployment") = false)
    (hs : hasName s.services (pe.metadata.name ++ "-service") = false)
    (hm : hasName s.mappings (pe.metadata.name ++ "-mapping") = false) :
    (handle idealGateway s (.added pe)).2 = .normal ∧
    (handle idealGateway (handle idealGateway s (.added pe)).1 (.added pe)).2 =
      .panicked "Failed to create deployment" ∧
    (handle idealGateway (handle idealGateway s (.added pe)).1 (.added pe)).1.deployments =
      (handle idealGateway s (.added pe)).1.deployments ∧
    (handle idealGateway (handle idealGateway s (.added pe)).1 (.added pe)).1.services =
      (handle idealGateway s (.added pe)).1.services ∧
    (handle idealGateway (handle idealGateway s (.added pe)).1 (.added pe)).1.mappings =
      (handle idealGateway s (.added pe)).1.mappings := by
  rw [handle_added_clean pe s hd hs hm]
  rw [handle_added_taken pe _ (hasName_cons_self _ _ _)]
  exact ⟨rfl, rfl, rfl, rfl, rfl⟩

/-- C2 witness: the amended theorem instantiated at `pe0` and the
empty cluster. -/
theorem C2_added_twice_witness :
    hasName emptyCluster.deployments (pe0.metadata.name ++ "-deployment") = false ∧
    hasName emptyCluster.services (pe0.metadata.name ++ "-service") = false ∧
    hasName emptyCluster.mappings (pe0.metadata.name ++ "-mapping") = false ∧
    ((handle idealGateway emptyCluster (.added pe0)).2 = .normal ∧
     (handle idealGateway (handle idealGateway emptyCluster (.added pe0)).1
        (.added pe0)).2 = .panicked "Failed to create deployment" ∧
     (handle idealGateway (handle idealGateway emptyCluster (.added pe0)).1
        (.added pe0)).1.deployments =
       (handle idealGateway emptyCluster (.added pe0)).1.deployments ∧
     (handle idealGateway (handle idealGateway emptyCluster (.added pe0)).1
        (.added pe0)).1.services =
       (handle idealGateway emptyCluster (.added pe0)).1.services ∧
     (handle idealGateway (handle idealGateway emptyCluster (.added pe0)).1
        (.added pe0)).1.mappings =
       (handle idealGateway emptyCluster (.added pe0)).1.mappings) :=
  ⟨rfl, rfl, rfl,
   C2_added_twice_state_idempotent_but_panics pe0 emptyCluster rfl rfl rfl⟩

/-- C3 counterexample: the claim says that if the Deployment create
fails with a non-benign error, the Service and Mapping creates are
still attempted (all three reach the gateway).  Against a gateway
whose deployment create fails with `Transient`, handling
`Added(pe0)` issues exactly one create — the gateway never sees the
service or mapping create — because the `expect` in
`create_deployment` panics. -/
theorem C3_creates_not_isolated_cex :
    (handle faultyDeployGateway emptyCluster (.added pe0)).1.trace =
      [.createDeployment "pr42-deployment"] ∧
    (handle faultyDeployGateway emptyCluster (.added pe0)).2 =
      .panicked "Failed to create deployment" :=
  ⟨rfl, rfl⟩

/-- C3 (amended): if creating the Deployment for `Added(r)` fails with
a non-benign error, the handler panics immediately: only the
deployment create is issued, and the Service and Mapping creations are
not attempted. -/
theorem C3_deploy_failure_aborts_added (s : ClusterState)
    (pe : KubePreviewEnvironment) :
    handle faultyDeployGateway s (.added pe) =
      ({ s with trace := s.trace ++
           [.createDeployment (pe.metadata.name ++ "-deployment")] },
       .panicked "Failed to create deployment") := by
  simp [handle, faultyDeployGateway, jsonName_deployment]

/-- C4 counterexample: the claim says reconciling `Deleted(r)` when no
dependents exist completes without a user-visible failure (`NotFound`
absorbed as success).  On the empty cluster, `Deleted(pe0)` panics:
`services.delete(...).unwrap()` aborts on the `NotFound` error. -/
theorem C4_deleted_empty_panics_cex :
    (handle idealGateway emptyCluster (.deleted pe0)).2 ≠ .normal ∧
    (handle idealGateway emptyCluster (.deleted pe0)).2 =
      .panicked "called `Result::unwrap()` on an `Err` value" :=
  ⟨by decide, rfl⟩

/-- C4 (amended): reconciling `Deleted(r)` when the derived service
name is absent leaves all three collections unchanged but panics at
the first delete's `NotFound` response — the `NotFound` is surfaced as
a process-aborting failure, not absorbed, and the remaining deletes
are not attempted. -/
theorem C4_deleted_absent_panics (pe : KubePreviewEnvironment) (s : ClusterState)
    (hs : hasName s.services (pe.metadata.name ++ "-service") = false) :
    (handle idealGateway s (.deleted pe)).2 =
      .panicked "called `Result::unwrap()` on an `Err` value" ∧
    (handle idealGateway s (.deleted pe)).1.services = s.services ∧
    (handle idealGateway s (.deleted pe)).1.deployments = s.deployments ∧
    (handle idealGateway s (.deleted pe)).1.mappings = s.mappings ∧
    (handle idealGateway s (.deleted pe)).1.trace =
      s.trace ++ [.deleteService (pe.metadata.name ++ "-service")] := by
  rw [handle_deleted_absent pe s hs]
  exact ⟨rfl, rfl, rfl, rfl, rfl⟩

/-- C4 witness: the amended theorem instantiated at `pe0` and the
empty cluster. -/
theorem C4_deleted_absent_witness :
    hasName emptyCluster.services (pe0.metadata.name ++ "-service") = false ∧
    ((handle idealGateway emptyCluster (.deleted pe0)).2 =
       .panicked "called `Result::unwrap()` on an `Err` value" ∧
     (handle idealGateway emptyCluster (.deleted pe0)).1.services =
       emptyCluster.services ∧
     (handle idealGateway emptyCluster (.deleted pe0)).1.deployments =
       emptyCluster.deployments ∧
     (handle idealGateway emptyCluster (.deleted pe0)).1.mappings =
       emptyCluster.mappings ∧
     (handle idealGateway emptyCluster (.deleted pe0)).1.trace =
       emptyCluster.trace ++ [.deleteService (pe0.metadata.name ++ "-service")]) :=
  ⟨rfl, C4_deleted_absent_panics pe0 emptyCluster rfl⟩

/-- C5: the claim says name derivation is deterministic and identical
in the Added and Deleted handlers, always yielding `N-deployment`,
`N-service`, `N-mapping` and host `N.volgenic.com`.  Evaluating the
code at the failing input `N = "pr42"`: the Added handler derives and
creates `pr42-deployment`, `pr42-service`, `pr42-mapping` with host
`pr42.volgenic.com`, and the Deleted handler derives the same service
and deployment names — but its mapping delete uses the fixed name
`"test-mapping"`, which differs from the derived `"pr42-mapping"`. -/
theorem C5_naming_divergence_code_eval :
    pr42Cluster.trace =
      [.createDeployment "pr42-deployment", .createService "pr42-service",
       .createMapping "pr42-mapping"] ∧
    pr42Cluster.mappings =
      [("pr42-mapping",
        json_for_mapping "pr42-mapping" "pr42.volgenic.com" "pr42-service")] ∧
    (handle idealGateway pr42Cluster (.deleted pe0)).1.trace =
      pr42Cluster.trace ++
        [.deleteService "pr42-service", .deleteDeployment "pr42-deployment"] ∧
    RawApi_delete "test-mapping" = .ok { name := "test-mapping" } ∧
    "test-mapping" ≠ "pr42-mapping" :=
  ⟨rfl, rfl, rfl, rfl, by decide⟩

/-- C6: for every source name, the Mapping document built during Added
handling (and stored under the derived mapping name) references
exactly the derived service name `name-service`, the derived host
`name.volgenic.com`, and the path `"/"` under the `"prefix"` key of
its spec. -/
theorem C6_mapping_cross_reference (pe : KubePreviewEnvironment) (s : ClusterState)
    (hd : hasName s.deployments (pe.metadata.name ++ "-deployment") = false)
    (hs : hasName s.services (pe.metadata.name ++ "-service") = false)
    (hm : hasName s.mappings (pe.metadata.name ++ "-mapping") = false) :
    (handle idealGateway s (.added pe)).1.mappings =
      (pe.metadata.name ++ "-mapping",
        json_for_mapping (pe.metadata.name ++ "-mapping")
          (pe.metadata.name ++ ".volgenic.com")
          (pe.metadata.name ++ "-service")) :: s.mappings ∧
    jsonSpecStr (json_for_mapping (pe.metadata.name ++ "-mapping")
        (pe.metadata.name ++ ".volgenic.com") (pe.metadata.name ++ "-service"))
      "service" = some (pe.metadata.name ++ "-service") ∧
    jsonSpecStr (json_for_mapping (pe.metadata.name ++ "-mapping")
        (pe.metadata.name ++ ".volgenic.com") (pe.metadata.name ++ "-service"))
      "host" = some (pe.metadata.name ++ ".volgenic.com") ∧
    jsonSpecStr (json_for_mapping (pe.metadata.name ++ "-mapping")
        (pe.metadata.name ++ ".volgenic.com") (pe.metadata.name ++ "-service"))
      "prefix" = some "/" := by
  rw [handle_added_clean pe s hd hs hm]
  exact ⟨rfl, rfl, rfl, rfl⟩

/-- C6 witness: the theorem instantiated at `pe0` and the empty
cluster. -/
theorem C6_mapping_cross_reference_witness :
    hasName emptyCluster.deployments (pe0.metadata.name ++ "-deployment") = false ∧
    hasName emptyCluster.services (pe0.metadata.name ++ "-service") = false ∧
    hasName emptyCluster.mappings (pe0.metadata.name ++ "-mapping") = false ∧
    ((handle idealGateway emptyCluster (.added pe0)).1.mappings =
      (pe0.metadata.name ++ "-mapping",
        json_for_mapping (pe0.metadata.name ++ "-mapping")
          (pe0.metadata.name ++ ".volgenic.com")
          (pe0.metadata.name ++ "-service")) :: emptyCluster.mappings ∧
     jsonSpecStr (json_for_mapping (pe0.metadata.name ++ "-mapping")
        (pe0.metadata.name ++ ".volgenic.com") (pe0.metadata.name ++ "-service"))
      "service" = some (pe0.metadata.name ++ "-service") ∧
     jsonSpecStr (json_for_mapping (pe0.metadata.name ++ "-mapping")
        (pe0.metadata.name ++ ".volgenic.com") (pe0.metadata.name ++ "-service"))
      "host" = some (pe0.metadata.name ++ ".volgenic.com") ∧
     jsonSpecStr (json_for_mapping (pe0.metadata.name ++ "-mapping")
        (pe0.metadata.name ++ ".volgenic.com") (pe0.metadata.name ++ "-service"))
      "prefix" = some "/") :=
  ⟨rfl, rfl, rfl, C6_mapping_cross_reference pe0 emptyCluster rfl rfl rfl⟩

/-- C7 counterexample: the claim says the deployment's single
container runs a configured (not hardcoded) default image.  The
source's builder does not follow the configuration: configuring the
default image to `"app:1"` (per the spec-modelled `buildDeployment_spec`)
yields a document the source's `json_for_deployment` does not produce —
its image is the hardcoded `"nginx"`. -/
theorem C7_image_not_configurable_cex :
    json_for_deployment "foo" ≠ buildDeployment_spec "app:1" "foo" := by
  intro h
  exact absurd (congrArg deploymentImage h) (by decide)

/-- C7 (amended): for every name, the Deployment document built for it
is single-replica, selects and labels pods by `app=name`, carries the
label `preview=true` at the deployment level, and has exactly one
container named `name` running the hardcoded image `"nginx"` (the
image is not a configuration option). -/
theorem C7_deployment_shape_hardcoded_image (name : String) :
    deploymentReplicas (json_for_deployment name) = some 1 ∧
    deploymentSelectorApp (json_for_deployment name) = some name ∧
    deploymentTemplateApp (json_for_deployment name) = some name ∧
    jsonMetaLabel (json_for_deployment name) "preview" = some "true" ∧
    deploymentContainers (json_for_deployment name) =
      [Json.obj [("name", Json.str name), ("image", Json.str "nginx")]] ∧
    deploymentContainerName (json_for_deployment name) = some name ∧
    deploymentImage (json_for_deployment name) = some "nginx" :=
  ⟨rfl, rfl, rfl, rfl, rfl, rfl, rfl⟩

/-- C8 counterexample: the claim says the three delete operations are
issued in the order service, deployment, mapping.  With all of `pr42`'s
dependents present, handling `Deleted(pe0)` issues exactly two deletes
— service then deployment; no mapping delete is ever issued (the
request `RawApi::delete` builds is dropped without being executed) and
`pr42-mapping` is still present afterwards. -/
theorem C8_mapping_delete_never_issued_cex :
    (handle idealGateway pr42Cluster (.deleted pe0)).1.trace =
      pr42Cluster.trace ++
        [.deleteService "pr42-service", .deleteDeployment "pr42-deployment"] ∧
    ((handle idealGateway pr42Cluster (.deleted pe0)).1.trace.length = 5) ∧
    hasName (handle idealGateway pr42Cluster (.deleted pe0)).1.mappings
      "pr42-mapping" = true :=
  ⟨rfl, rfl, rfl⟩

/-- C8 (amended): when the derived service and deployment exist,
handling `Deleted(r)` issues the delete operations in the order
service then deployment; the mapping delete is only constructed (for
the fixed name `"test-mapping"`) and never issued, so the mappings
collection is untouched and no mapping-delete operation appears in
the trace. -/
theorem C8_delete_order_service_then_deployment
    (pe : KubePreviewEnvironment) (s : ClusterState)
    (hs : hasName s.services (pe.metadata.name ++ "-service") = true)
    (hd : hasName s.deployments (pe.metadata.name ++ "-deployment") = true) :
    (handle idealGateway s (.deleted pe)).2 = .normal ∧
    (handle idealGateway s (.deleted pe)).1.trace =
      s.trace ++ [.deleteService (pe.metadata.name ++ "-service"),
                  .deleteDeployment (pe.metadata.name ++ "-deployment")] ∧
    (handle idealGateway s (.deleted pe)).1.mappings = s.mappings ∧
    ((handle idealGateway s (.deleted pe)).1.trace.filter isMappingDelete) =
      (s.trace.filter isMappingDelete) := by
  rw [handle_deleted_present pe s hs hd]
  refine ⟨rfl, rfl, rfl, ?_⟩
  simp [List.filter_append, isMappingDelete]

/-- C8 witness: the amended theorem instantiated at `pe0` and the
cluster holding `pr42`'s dependents. -/
theorem C8_delete_order_witness :
    hasName pr42Cluster.services (pe0.metadata.name ++ "-service") = true ∧
    hasName pr42Cluster.deployments (pe0.metadata.name ++ "-deployment") = true ∧
    ((handle idealGateway pr42Cluster (.deleted pe0)).2 = .normal ∧
     (handle idealGateway pr42Cluster (.deleted pe0)).1.trace =
       pr42Cluster.trace ++
         [.deleteService (pe0.metadata.name ++ "-service"),
          .deleteDeployment (pe0.metadata.name ++ "-deployment")] ∧
     (handle idealGateway pr42Cluster (.deleted pe0)).1.mappings =
       pr42Cluster.mappings ∧
     ((handle idealGateway pr42Cluster (.deleted pe0)).1.trace.filter
       isMappingDelete) = (pr42Cluster.trace.filter isMappingDelete)) :=
  ⟨rfl, rfl, C8_delete_order_service_then_deployment pe0 pr42Cluster rfl rfl⟩

/-- C9 counterexample: the claim says a failure while processing one
event does not stop consumption of subsequent events.  Feeding the
loop a stream with `Deleted(pe0)` (which panics on the empty cluster)
followed by `Added(pe9)`: the run aborts at the first event and the
second is never consumed — no `pr9` deployment is ever created. -/
theorem C9_processing_failure_stops_loop_cex :
    (runLoop idealGateway emptyCluster
      [.stream [.ok (.deleted pe0), .ok (.added pe9)]]).2 =
      .aborted "called `Result::unwrap()` on an `Err` value" ∧
    (runLoop idealGateway emptyCluster
      [.stream [.ok (.deleted pe0), .ok (.added pe9)]]).1.deployments = [] :=
  ⟨rfl, rfl⟩

/-- C9 (amended): on stream exhaustion the loop re-establishes a new
subscription and continues with it, and a stream-delivered
`WatchEvent::Error` is absorbed without stopping consumption; but an
`Err` item from the stream terminates `main` through the `?` operator,
and a panic while processing an event aborts the process — both stop
consumption of subsequent events. -/
theorem C9_loop_resubscribes_but_failures_fatal :
    (∀ (σ : Type) (res : ApiResources σ) (s : σ) (e : String) (rest : List Poll),
      runLoop res s (.stream [.ok (.errorEvent e)] :: rest) = runLoop res s rest) ∧
    (∀ (σ : Type) (res : ApiResources σ) (s : σ) (e : String)
        (more : List StreamItem) (rest : List Poll),
      runLoop res s (.stream (.err e :: more) :: rest) = (s, .mainError e)) ∧
    (∀ (σ : Type) (res : ApiResources σ) (s s' : σ) (ev : WatchEvent) (m : String)
        (more : List StreamItem) (rest : List Poll),
      handle res s ev = (s', .panicked m) →
      runLoop res s (.stream (.ok ev :: more) :: rest) = (s', .aborted m)) := by
  refine ⟨?_, ?_, ?_⟩
  · intro σ res s e rest
    simp [runLoop, runStream, handle]
  · intro σ res s e more rest
    simp [runLoop, runStream]
  · intro σ res s s' ev m more rest h
    simp [runLoop, runStream, h]

/-- C9 witness: the panic clause of the amended theorem instantiated
at `Deleted(pe0)` on the empty cluster. -/
theorem C9_loop_witness :
    handle idealGateway emptyCluster (.deleted pe0) =
      (c9wState, .panicked "called `Result::unwrap()` on an `Err` value") ∧
    runLoop idealGateway emptyCluster [.stream [.ok (.deleted pe0)]] =
      (c9wState, .aborted "called `Result::unwrap()` on an `Err` value") :=
  ⟨rfl, C9_loop_resubscribes_but_failures_fatal.2.2 ClusterState idealGateway
    emptyCluster c9wState (.deleted pe0)
    "called `Result::unwrap()` on an `Err` value" [] [] rfl⟩

/-- C10: the gateway operations performed for any event depend only on
the source resource's `metadata.name`: for any gateway, any cluster
state, and any two source resources with the same name (whatever their
`spec.image` and `spec.fqdn`), Added handling and Deleted handling
produce identical results; moreover the deployment document built in
Added handling always carries image `"nginx"` and the mapping document
always carries host `name ++ ".volgenic.com"`. -/
theorem C10_depends_only_on_name (σ : Type) (res : ApiResources σ) (s : σ)
    (pe1 pe2 : KubePreviewEnvironment)
    (h : pe1.metadata.name = pe2.metadata.name) :
    handle res s (.added pe1) = handle res s (.added pe2) ∧
    handle res s (.deleted pe1) = handle res s (.deleted pe2) ∧
    deploymentImage (json_for_deployment (pe1.metadata.name ++ "-deployment")) =
      some "nginx" ∧
    jsonSpecStr (json_for_mapping (pe1.metadata.name ++ "-mapping")
        (pe1.metadata.name ++ ".volgenic.com") (pe1.metadata.name ++ "-service"))
      "host" = some (pe1.metadata.name ++ ".volgenic.com") := by
  obtain ⟨⟨n1⟩, sp1⟩ := pe1
  obtain ⟨⟨n2⟩, sp2⟩ := pe2
  dsimp only at h
  subst h
  exact ⟨rfl, rfl, rfl, rfl⟩

/-- C10 witness: the theorem instantiated at `pe0` and `peB`, which
share the name `pr42` but differ in `spec.image` and `spec.fqdn`. -/
theorem C10_depends_only_on_name_witness :
    pe0.metadata.name = peB.metadata.name ∧
    (handle idealGateway emptyCluster (.added pe0) =
       handle idealGateway emptyCluster (.added peB) ∧
     handle idealGateway emptyCluster (.deleted pe0) =
       handle idealGateway emptyCluster (.deleted peB) ∧
     deploymentImage (json_for_deployment (pe0.metadata.name ++ "-deployment")) =
       some "nginx" ∧
     jsonSpecStr (json_for_mapping (pe0.metadata.name ++ "-mapping")
         (pe0.metadata.name ++ ".volgenic.com") (pe0.metadata.name ++ "-service"))
       "host" = some (pe0.metadata.name ++ ".volgenic.com")) :=
  ⟨rfl, C10_depends_only_on_name ClusterState idealGateway emptyCluster pe0 peB rfl⟩

end PreviewCtrl
